import Mathlib

/-
Verification of the TASI financial ETL pipeline: a shallow embedding of the
value cleaners, derived-metrics calculator, unit-normalization engine,
dimensional resolver, fact loader and balance-sheet validator, with theorems
settling the specified properties.

Conventions of the embedding:
- A pandas / SQL nullable numeric cell is `Option ℚ` (`none` = NaN / NULL).
- Python floats are embedded as `ℚ`; every value reached by the properties
  below is produced by exact arithmetic on CSV numerals, so no rounding is
  involved in what the theorems state.
- Dates are reduced to the components the code reads (`month : ℕ` for
  quarter derivation, `extraction_date : Option ℕ` as a totally ordered
  timestamp with `none` = NaT).
- Loosely typed Python scalars (for `clean_boolean`) are the inductive
  `PyVal`.
-/

namespace TASI

/-- A loosely typed scalar as the cleaners receive it from pandas:
`null` is NaN/None, and otherwise a bool, a string or a number. -/
inductive PyVal where
  | null : PyVal
  | boolv (b : Bool) : PyVal
  | str (s : String) : PyVal
  | num (q : ℚ) : PyVal
  deriving DecidableEq

/-- Python `str.upper()` on the character data of a string (ASCII inputs,
as the truthy tuple is ASCII). -/
def py_upper (s : String) : String := ⟨s.data.map Char.toUpper⟩

/-- Python `str.strip()`: drop whitespace from both ends of the character
data. -/
def py_strip (s : String) : String :=
  ⟨((s.data.dropWhile Char.isWhitespace).reverse.dropWhile
    Char.isWhitespace).reverse⟩

/-- Embeds `clean_boolean` (src/migrate_data.py lines 45-53; the body in
src/schema/02_etl_migrate.py lines 50-58 is identical): `pd.isna(value)`
gives `False`; a bool passes through; for a string the upper-cased form is
tested against the fixed truthy tuple; every other value falls through to
Python `bool(value)`, which for a number is `value != 0`. -/
def clean_boolean : PyVal → Bool
  | .null => false
  | .boolv b => b
  | .str s => ["TRUE", "YES", "1", "T"].contains (py_upper s)
  | .num q => decide (q ≠ 0)

/-- Embeds `get_quarter` (src/migrate_data.py lines 80-88), with the
`period_end.month` access replaced by the month itself: `Annual` short
circuits to `FY`, otherwise the month is bucketed by `<= 3/6/9`. -/
def get_quarter (month : ℕ) (period_type : String) : String :=
  if period_type = "Annual" then "FY"
  else if month ≤ 3 then "Q1"
  else if month ≤ 6 then "Q2"
  else if month ≤ 9 then "Q3"
  else "Q4"

/-- Embeds `determine_quarter_from_date` (src/schema/02_etl_migrate.py lines
61-74), again on the month component: `Annual` gives `FY`, otherwise
membership in the explicit month lists. -/
def determine_quarter_from_date (month : ℕ) (period_type : String) : String :=
  if period_type = "Annual" then "FY"
  else if month = 1 ∨ month = 2 ∨ month = 3 then "Q1"
  else if month = 4 ∨ month = 5 ∨ month = 6 then "Q2"
  else if month = 7 ∨ month = 8 ∨ month = 9 then "Q3"
  else "Q4"

/-- Quarter bucketing as the spec phrases it (months 1-3 give Q1, 4-6 give
Q2, 7-9 give Q3, 10-12 give Q4), for comparison with the two source
functions. -/
def claimed_quarter_bucket (month : ℕ) : String :=
  if 1 ≤ month ∧ month ≤ 3 then "Q1"
  else if 4 ≤ month ∧ month ≤ 6 then "Q2"
  else if 7 ≤ month ∧ month ≤ 9 then "Q3"
  else "Q4"

/-- Pandas semantics of `series != 0` on a nullable cell: NaN compares as
not-equal, so `none` gives `true`. -/
def pandasNe0 : Option ℚ → Bool
  | none => true
  | some x => decide (x ≠ 0)

/-- Pandas `notna` on a nullable cell. -/
def pandasNotna (v : Option ℚ) : Bool := v.isSome

/-- The `np.where((den != 0) & (num.notna()), f(num, den), np.nan)` idiom of
`calculate_derived_fields` (src/scripts/insert_extracted_data.py lines
40-104): when the guard holds the selected value still propagates NaN, so a
NaN denominator (which passes `!= 0` under pandas) yields NaN. Inside the
guard a `some`/`some` pair has a non-zero denominator, so `f` is applied to
ordinary division. -/
def np_where_ratio (num den : Option ℚ) (f : ℚ → ℚ → ℚ) : Option ℚ :=
  if pandasNe0 den && pandasNotna num then
    match num, den with
    | some n, some d => some (f n d)
    | _, _ => none
  else none

/-- One record of statement-level raw fields, as `calculate_derived_fields`
reads them. -/
structure StmtRow where
  revenue : Option ℚ
  gross_profit : Option ℚ
  operating_profit : Option ℚ
  net_profit : Option ℚ
  total_assets : Option ℚ
  total_equity : Option ℚ
  total_liabilities : Option ℚ
  current_assets : Option ℚ
  current_liabilities : Option ℚ
  inventory : Option ℚ
  deriving DecidableEq

/-- `calc_ROE` of src/scripts/insert_extracted_data.py lines 40-44. -/
def calc_ROE (r : StmtRow) : Option ℚ :=
  np_where_ratio r.net_profit r.total_equity (fun n d => n / d * 100)

/-- `calc_ROA` of src/scripts/insert_extracted_data.py lines 46-50. -/
def calc_ROA (r : StmtRow) : Option ℚ :=
  np_where_ratio r.net_profit r.total_assets (fun n d => n / d * 100)

/-- `calc_gross_margin` of src/scripts/insert_extracted_data.py lines 52-56. -/
def calc_gross_margin (r : StmtRow) : Option ℚ :=
  np_where_ratio r.gross_profit r.revenue (fun n d => n / d * 100)

/-- `calc_operating_margin` of src/scripts/insert_extracted_data.py lines 58-62. -/
def calc_operating_margin (r : StmtRow) : Option ℚ :=
  np_where_ratio r.operating_profit r.revenue (fun n d => n / d * 100)

/-- `calc_net_margin` of src/scripts/insert_extracted_data.py lines 64-68. -/
def calc_net_margin (r : StmtRow) : Option ℚ :=
  np_where_ratio r.net_profit r.revenue (fun n d => n / d * 100)

/-- `calc_current_ratio` of src/scripts/insert_extracted_data.py lines 70-74
(no percentage scaling). -/
def calc_current_ratio (r : StmtRow) : Option ℚ :=
  np_where_ratio r.current_assets r.current_liabilities (fun n d => n / d)

/-- `calc_quick_ratio` of src/scripts/insert_extracted_data.py lines 76-80:
the guard additionally requires `inventory` present, and the numerator is
`current_assets - inventory`. -/
def calc_quick_ratio (r : StmtRow) : Option ℚ :=
  if pandasNe0 r.current_liabilities && pandasNotna r.current_assets
      && pandasNotna r.inventory then
    match r.current_assets, r.inventory, r.current_liabilities with
    | some ca, some inv, some cl => some ((ca - inv) / cl)
    | _, _, _ => none
  else none

/-- `calc_debt_to_equity` of src/scripts/insert_extracted_data.py lines 82-86. -/
def calc_debt_to_equity (r : StmtRow) : Option ℚ :=
  np_where_ratio r.total_liabilities r.total_equity (fun n d => n / d * 100)

/-- `calc_debt_to_assets` of src/scripts/insert_extracted_data.py lines 88-92. -/
def calc_debt_to_assets (r : StmtRow) : Option ℚ :=
  np_where_ratio r.total_liabilities r.total_assets (fun n d => n / d * 100)

/-- `calc_asset_turnover` of src/scripts/insert_extracted_data.py lines 94-98
(no percentage scaling). -/
def calc_asset_turnover (r : StmtRow) : Option ℚ :=
  np_where_ratio r.revenue r.total_assets (fun n d => n / d)

/-- Bank ROE from `calculate_bank_ratios` (src/scripts/bank_metrics.py lines
180-182): the Python guard `net_profit and total_equity and total_equity != 0`
is truthiness, so a present-but-zero numerator also leaves the ratio unset. -/
def bank_return_on_equity (net_profit total_equity : Option ℚ) : Option ℚ :=
  match net_profit, total_equity with
  | some n, some e => if n ≠ 0 ∧ e ≠ 0 then some (n / e * 100) else none
  | _, _ => none

/-- Bank ROA from `calculate_bank_ratios` (src/scripts/bank_metrics.py lines
184-186), with the same truthiness guard on `net_profit and total_assets and
total_assets != 0`. -/
def bank_return_on_assets (net_profit total_assets : Option ℚ) : Option ℚ :=
  match net_profit, total_assets with
  | some n, some a => if n ≠ 0 ∧ a ≠ 0 then some (n / a * 100) else none
  | _, _ => none

/-- One entry of the unit-multiplier map `unit_multipliers.json` as
src/scripts/build_multipliers.py writes it: a multiplier, a unit name and
the company display name. -/
structure MultEntry where
  multiplier : ℚ
  unit : String
  company : String
  deriving DecidableEq

/-- `MONETARY_COLUMNS` of src/scripts/normalize_units.py lines 26-49. -/
def MONETARY_COLUMNS : List String :=
  ["revenue", "cost_of_sales", "gross_profit", "operating_profit",
   "net_profit", "interest_expense", "total_assets", "total_equity",
   "total_liabilities", "current_assets", "current_liabilities", "inventory",
   "receivables", "operating_cash_flow", "capex", "free_cash_flow",
   "working_capital", "gross_profit_calc", "total_liabilities_calc",
   "free_cash_flow_calc", "working_capital_calc", "capex_adjusted"]

/-- `MILLIONS_COLUMNS` of src/scripts/normalize_units.py lines 52-57. -/
def MILLIONS_COLUMNS : List String :=
  ["revenue_millions", "net_profit_millions", "total_assets_millions",
   "total_equity_millions"]

/-- One dataframe row as src/scripts/normalize_units.py touches it: the
ticker cell, the three normalization-metadata columns, and every other
column as a nullable numeric cell addressed by column name. -/
structure Row where
  ticker : Option ℤ
  original_unit : String
  was_normalized : Bool
  normalization_multiplier : ℚ
  cols : String → Option ℚ

/-- Per-row body of `normalize_data` (src/scripts/normalize_units.py lines
77-99): the ticker cell is canonicalized by `str(int(...))` (here
`toString`); a row whose ticker is NaN or absent from the multiplier map is
untouched; otherwise every monetary and millions column present in the
dataframe whose cell is non-null and non-zero is multiplied by the mapped
multiplier. The two source loops (MONETARY then MILLIONS) touch disjoint
column lists, so they are folded into one membership test. -/
def normalize_row (mult : String → Option MultEntry) (dfCols : List String)
    (r : Row) : Row :=
  match r.ticker with
  | none => r
  | some t =>
    match mult (toString t) with
    | none => r
    | some e =>
      { r with cols := fun c =>
          if (MONETARY_COLUMNS.contains c || MILLIONS_COLUMNS.contains c)
              && dfCols.contains c then
            match r.cols c with
            | some v => if v ≠ 0 then some (v * e.multiplier) else some v
            | none => none
          else r.cols c }

/-- `normalize_data` (src/scripts/normalize_units.py lines 66-106) as the
row-wise map it performs; the printed statistics are dropped. -/
def normalize_data (mult : String → Option MultEntry) (dfCols : List String)
    (rows : List Row) : List Row :=
  rows.map (normalize_row mult dfCols)

/-- `add_normalization_metadata` (src/scripts/normalize_units.py lines
108-121): every row first gets the defaults SAR/false/1, then rows whose
ticker is in the multiplier map get the mapped unit, `True` and the mapped
multiplier. -/
def add_normalization_metadata (mult : String → Option MultEntry)
    (r : Row) : Row :=
  let r0 := { r with original_unit := "SAR", was_normalized := false,
                     normalization_multiplier := 1 }
  match r.ticker with
  | none => r0
  | some t =>
    match mult (toString t) with
    | none => r0
    | some e =>
      { r0 with original_unit := e.unit, was_normalized := true,
                normalization_multiplier := e.multiplier }

/-- Ratio-to-unit classification of src/scripts/build_multipliers.py lines
57-65: strict bands `(500000, 2000000)` for millions and `(500, 2000)` for
thousands, else raw SAR. -/
def determine_unit (ratio : ℚ) : String × ℚ :=
  if 500000 < ratio ∧ ratio < 2000000 then ("millions", 1000000)
  else if 500 < ratio ∧ ratio < 2000 then ("thousands", 1000)
  else ("SAR", 1)

/-- Benchmark ratio of src/scripts/build_multipliers.py lines 50-54:
`expected / actual` when the observed revenue is positive, else the code
sets `ratio = 0`. -/
def benchmark_ratio (expected_rev_sar actual_revenue : ℚ) : ℚ :=
  if 0 < actual_revenue then expected_rev_sar / actual_revenue else 0

/-- Unit inference for one benchmark entity (src/scripts/build_multipliers.py
lines 36-78): classify the benchmark ratio. -/
def benchmark_multiplier (expected_rev_sar actual_revenue : ℚ) : String × ℚ :=
  determine_unit (benchmark_ratio expected_rev_sar actual_revenue)

/-- Multiplier classification as the claim states it, as a function of the
ratio `expected / observed`, for comparison with `benchmark_multiplier`. -/
def claimed_multiplier (ratio : ℚ) : ℚ :=
  if 500000 < ratio ∧ ratio < 2000000 then 1000000
  else if 500 < ratio ∧ ratio < 2000 then 1000
  else 1

/-- State of the company resolver within one run: the `companies_cache` of
src/migrate_data.py (the durable store starts empty in the modelled run and
stays in lockstep with the cache, so one map carries both) and the next
surrogate id the store would assign. -/
structure ResolverState where
  cache : List (String × ℕ)
  next_id : ℕ
  deriving DecidableEq

/-- Python `s.endswith(".0")` on the character data. -/
def ends_with_dot_zero (s : String) : Bool :=
  decide (s.data.reverse.take 2 = ['0', '.'])

/-- Python `s[:-2]` on the character data. -/
def drop_last2 (s : String) : String := ⟨(s.data.reverse.drop 2).reverse⟩

/-- Ticker canonicalization of `get_or_create_company`
(src/migrate_data.py lines 146-149): strip whitespace, then strip one
trailing ".0". -/
def canonical_ticker (raw : String) : String :=
  let t := py_strip raw
  if ends_with_dot_zero t then drop_last2 t else t

/-- Dictionary lookup in the companies cache. -/
def cache_lookup (key : String) : List (String × ℕ) → Option ℕ
  | [] => none
  | (k, v) :: rest => if k = key then some v else cache_lookup key rest

/-- `get_or_create_company` of src/migrate_data.py lines 145-177, reduced to
key resolution: canonicalize, look up, and on a miss create the next id
under the canonical key. -/
def get_or_create_company (st : ResolverState) (raw : String) :
    ℕ × ResolverState :=
  let ticker := canonical_ticker raw
  match cache_lookup ticker st.cache with
  | some id => (id, st)
  | none => (st.next_id, ⟨(ticker, st.next_id) :: st.cache, st.next_id + 1⟩)

/-- Ticker canonicalization of `TASIDataMigrator.get_or_create_company`
(src/schema/02_etl_migrate.py line 132): whitespace strip only, no ".0"
handling. -/
def canonical_ticker_etl (raw : String) : String := py_strip raw

/-- `TASIDataMigrator.get_or_create_company` of src/schema/02_etl_migrate.py
lines 130-165, reduced to key resolution exactly as `get_or_create_company`
above but with the trim-only canonicalization. -/
def get_or_create_company_etl (st : ResolverState) (raw : String) :
    ℕ × ResolverState :=
  let ticker := canonical_ticker_etl raw
  match cache_lookup ticker st.cache with
  | some id => (id, st)
  | none => (st.next_id, ⟨(ticker, st.next_id) :: st.cache, st.next_id + 1⟩)

/-- One incoming or stored record of the CSV fact loader
(src/scripts/insert_extracted_data.py): the natural key
(ticker, fiscal_year, period_type), the parsed extraction timestamp
(`none` = NaT), and the statement payload. -/
structure LoadRec where
  ticker : ℤ
  fiscal_year : ℤ
  period_type : String
  extraction_date : Option ℕ
  payload : StmtRow
  deriving DecidableEq

/-- Natural-key match of the loader loop (src/scripts/insert_extracted_data.py
lines 197-201). -/
def matches_key (s r : LoadRec) : Bool :=
  s.ticker == r.ticker && s.fiscal_year == r.fiscal_year
    && s.period_type == r.period_type

/-- One iteration of the loader loop of `main`
(src/scripts/insert_extracted_data.py lines 191-218, plus the append of new
records at lines 229-242) for a single incoming record: the first stored row
with the same natural key is replaced in place when both extraction dates
parse and the incoming one is strictly newer, kept otherwise (skip), and
when no row matches the record is appended at the end. -/
def load_record : List LoadRec → LoadRec → List LoadRec
  | [], r => [r]
  | s :: rest, r =>
    if matches_key s r then
      match r.extraction_date, s.extraction_date with
      | some nd, some ed => if ed < nd then r :: rest else s :: rest
      | _, _ => s :: rest
    else s :: load_record rest r

/-- Python `int()` truncation of a float toward zero, as applied to the
parsed profitability score. -/
def py_int_trunc (q : ℚ) : ℤ := if q < 0 then ⌈q⌉ else ⌊q⌋

/-- Profitability-score storage of src/migrate_data.py lines 282-286, as a
function of the `clean_numeric` result: an unparseable score stays NULL, a
parsed score is truncated to int, and a zero int is stored as NULL. -/
def profitability_score_stored (parsed : Option ℚ) : Option ℤ :=
  match parsed with
  | none => none
  | some q =>
    let s := py_int_trunc q
    if s = 0 then none else some s

/-- Profitability-score expression of
src/schema/02_etl_migrate.py line 312, `int(clean_numeric(...) or 0) or
None`: a missing parse is replaced by 0 before truncation (`or 0`, which
also maps a parsed 0.0 to 0), and a zero int becomes None (`or None`). -/
def profitability_score_stored_etl (parsed : Option ℚ) : Option ℤ :=
  let base : ℚ := match parsed with | none => 0 | some q => q
  let s := py_int_trunc base
  if s = 0 then none else some s

/-- Balance-sheet relative variance of `DataValidator.validate_balance_sheet`
(src/scripts/validate_extraction.py lines 199-217): the SQL CASE computes
`ABS(total_assets - (total_liabilities + total_equity)) / total_assets * 100`
when `total_assets > 0` and 0 otherwise over the rows where all three fields
are non-null. -/
def balance_variance_pct (total_assets total_liabilities total_equity : ℚ) : ℚ :=
  if 0 < total_assets then
    |total_assets - (total_liabilities + total_equity)| / total_assets * 100
  else 0

/-- The 5 percent tolerance of src/scripts/validate_extraction.py line 222. -/
def balance_sheet_tolerance : ℚ := 5

/-- Failure flag of the per-row check at src/scripts/validate_extraction.py
lines 224-230: a row fails exactly when its variance percentage exceeds the
tolerance. -/
def balance_sheet_fails (total_assets total_liabilities total_equity : ℚ) :
    Bool :=
  decide (balance_variance_pct total_assets total_liabilities total_equity
    > balance_sheet_tolerance)

/-- Concrete multiplier map holding exactly Saudi Aramco at ticker 2222 with
the millions multiplier, as in `unit_multipliers.json`. -/
def aramco_mult : String → Option MultEntry := fun s =>
  if s = "2222" then some ⟨1000000, "millions", "Saudi Arabian Oil Co."⟩
  else none

/-- Concrete multiplier map recording multiplier 1 (unit SAR) for every
ticker: the post-normalization profile the spec describes. -/
def all_one_mult : String → Option MultEntry := fun _ =>
  some ⟨1, "SAR", "already normalized"⟩

/-- Concrete row: Saudi Aramco with revenue 175000 (filed in millions) and
every other cell null. -/
def aramco_row : Row :=
  { ticker := some 2222, original_unit := "SAR", was_normalized := false,
    normalization_multiplier := 1,
    cols := fun c => if c = "revenue" then some 175000 else none }

/-- Concrete statement row for witnesses: equity 400, assets 1000,
liabilities 600, net profit 100, revenue 2000, the working-capital fields
present, inventory 50. -/
def sample_row : StmtRow :=
  { revenue := some 2000, gross_profit := some 800,
    operating_profit := some 500, net_profit := some 100,
    total_assets := some 1000, total_equity := some 400,
    total_liabilities := some 600, current_assets := some 300,
    current_liabilities := some 150, inventory := some 50 }

/-- Concrete loader records for the freshness scenario: ticker 2222, fiscal
year 2024, Annual, extraction timestamps 1 and 2, distinct payloads. -/
def rec_t1 : LoadRec :=
  { ticker := 2222, fiscal_year := 2024, period_type := "Annual",
    extraction_date := some 1, payload := sample_row }

/-- Second record of the freshness scenario, strictly newer, with an updated
net profit. -/
def rec_t2 : LoadRec :=
  { ticker := 2222, fiscal_year := 2024, period_type := "Annual",
    extraction_date := some 2,
    payload := { sample_row with net_profit := some 120 } }

lemma np_where_ratio_isSome (num den : Option ℚ) (f : ℚ → ℚ → ℚ) :
    (np_where_ratio num den f).isSome ↔
      den ≠ none ∧ den ≠ some 0 ∧ num ≠ none := by
  cases den with
  | none => cases num <;> simp [np_where_ratio, pandasNe0, pandasNotna]
  | some d =>
    cases num with
    | none => simp [np_where_ratio, pandasNe0, pandasNotna]
    | some n =>
      by_cases hd : d = 0 <;>
        simp [np_where_ratio, pandasNe0, pandasNotna, hd]

/-- C1. For every record and every ratio of the derived-metrics calculator
(ROE, ROA, the three margins, current and quick ratio, debt-to-equity,
debt-to-assets, asset turnover), the ratio is non-null exactly when the
denominator is present and non-zero and the numerator is present (for the
quick ratio, both numerator parts); and in the bank calculator ROE and ROA
are non-null only under the same conditions and are null whenever a
condition fails — so with a missing or zero denominator or missing numerator
every ratio is null, never a division error and never a 0 standing in for
null. -/
theorem c1_ratio_null_guards (r : StmtRow) (np te ta : Option ℚ) :
    ((calc_ROE r).isSome ↔
      r.total_equity ≠ none ∧ r.total_equity ≠ some 0 ∧ r.net_profit ≠ none) ∧
    ((calc_ROA r).isSome ↔
      r.total_assets ≠ none ∧ r.total_assets ≠ some 0 ∧ r.net_profit ≠ none) ∧
    ((calc_gross_margin r).isSome ↔
      r.revenue ≠ none ∧ r.revenue ≠ some 0 ∧ r.gross_profit ≠ none) ∧
    ((calc_operating_margin r).isSome ↔
      r.revenue ≠ none ∧ r.revenue ≠ some 0 ∧ r.operating_profit ≠ none) ∧
    ((calc_net_margin r).isSome ↔
      r.revenue ≠ none ∧ r.revenue ≠ some 0 ∧ r.net_profit ≠ none) ∧
    ((calc_current_ratio r).isSome ↔
      r.current_liabilities ≠ none ∧ r.current_liabilities ≠ some 0 ∧
        r.current_assets ≠ none) ∧
    ((calc_quick_ratio r).isSome ↔
      r.current_liabilities ≠ none ∧ r.current_liabilities ≠ some 0 ∧
        r.current_assets ≠ none ∧ r.inventory ≠ none) ∧
    ((calc_debt_to_equity r).isSome ↔
      r.total_equity ≠ none ∧ r.total_equity ≠ some 0 ∧
        r.total_liabilities ≠ none) ∧
    ((calc_debt_to_assets r).isSome ↔
      r.total_assets ≠ none ∧ r.total_assets ≠ some 0 ∧
        r.total_liabilities ≠ none) ∧
    ((calc_asset_turnover r).isSome ↔
      r.total_assets ≠ none ∧ r.total_assets ≠ some 0 ∧ r.revenue ≠ none) ∧
    (bank_return_on_equity np te ≠ none →
      te ≠ none ∧ te ≠ some 0 ∧ np ≠ none) ∧
    (te = none ∨ te = some 0 ∨ np = none → bank_return_on_equity np te = none) ∧
    (bank_return_on_assets np ta ≠ none →
      ta ≠ none ∧ ta ≠ some 0 ∧ np ≠ none) ∧
    (ta = none ∨ ta = some 0 ∨ np = none →
      bank_return_on_assets np ta = none) := by
  refine ⟨np_where_ratio_isSome _ _ _, np_where_ratio_isSome _ _ _,
    np_where_ratio_isSome _ _ _, np_where_ratio_isSome _ _ _,
    np_where_ratio_isSome _ _ _, np_where_ratio_isSome _ _ _, ?_,
    np_where_ratio_isSome _ _ _, np_where_ratio_isSome _ _ _,
    np_where_ratio_isSome _ _ _, ?_, ?_, ?_, ?_⟩
  · cases hcl : r.current_liabilities with
    | none =>
      cases hca : r.current_assets <;> cases hinv : r.inventory <;>
        simp [calc_quick_ratio, pandasNe0, pandasNotna, hcl, hca, hinv]
    | some d =>
      cases hca : r.current_assets with
      | none =>
        cases hinv : r.inventory <;>
          simp [calc_quick_ratio, pandasNe0, pandasNotna, hcl, hca, hinv]
      | some ca =>
        cases hinv : r.inventory with
        | none =>
          simp [calc_quick_ratio, pandasNe0, pandasNotna, hcl, hca, hinv]
        | some inv =>
          by_cases hd : d = 0 <;>
            simp [calc_quick_ratio, pandasNe0, pandasNotna, hcl, hca, hinv, hd]
  · cases np with
    | none => simp [bank_return_on_equity]
    | some n =>
      cases te with
      | none => simp [bank_return_on_equity]
      | some e =>
        by_cases he : e = 0 <;> by_cases hn : n = 0 <;>
          simp [bank_return_on_equity, he, hn]
  · rintro (h | h | h)
    · subst h; cases np <;> simp [bank_return_on_equity]
    · subst h; cases np <;> simp [bank_return_on_equity]
    · subst h; cases te <;> simp [bank_return_on_equity]
  · cases np with
    | none => simp [bank_return_on_assets]
    | some n =>
      cases ta with
      | none => simp [bank_return_on_assets]
      | some a =>
        by_cases ha : a = 0 <;> by_cases hn : n = 0 <;>
          simp [bank_return_on_assets, ha, hn]
  · rintro (h | h | h)
    · subst h; cases np <;> simp [bank_return_on_assets]
    · subst h; cases np <;> simp [bank_return_on_assets]
    · subst h; cases ta <;> simp [bank_return_on_assets]

/-- Witness for C1 at a concrete record: the guards hold for the sample row,
so ROE is computed there, and a bank ROE with a null equity denominator is
null. -/
theorem c1_ratio_null_guards_witness :
    (calc_ROE sample_row).isSome = true ∧
    bank_return_on_equity (some 100) none = none := by
  constructor
  · exact (c1_ratio_null_guards sample_row none none none).1.mpr (by decide)
  · exact (c1_ratio_null_guards sample_row (some 100) none
      none).2.2.2.2.2.2.2.2.2.2.2.1 (Or.inl rfl)

lemma normalize_row_multiplier_one (mult : String → Option MultEntry)
    (dfCols : List String) (r : Row)
    (h : ∀ s e, mult s = some e → e.multiplier = 1) :
    normalize_row mult dfCols r = r := by
  obtain ⟨ticker, ou, wn, nm, cols⟩ := r
  cases ticker with
  | none => rfl
  | some t =>
    cases hm : mult (toString t) with
    | none => simp [normalize_row, hm]
    | some e =>
      have h1 : e.multiplier = 1 := h _ _ hm
      simp only [normalize_row, hm, h1, mul_one, Row.mk.injEq, true_and]
      funext c
      cases hb : (MONETARY_COLUMNS.contains c || MILLIONS_COLUMNS.contains c)
          && dfCols.contains c with
      | false => simp [hb]
      | true =>
        simp only [hb, if_true]
        cases hcc : cols c with
        | none => simp [hcc]
        | some v => by_cases hv : v = 0 <;> simp [hcc, hv]

/-- C2 counterexample: `normalize_data` is not gated on the recorded
normalization metadata. For the Aramco row (revenue 175000, multiplier
1000000 in the map), normalizing, recording the metadata, and normalizing
again multiplies the revenue cell by the mapped multiplier a second time, so
the monetary field is not unchanged. -/
theorem c2_second_normalization_changes_revenue :
    (normalize_row aramco_mult MONETARY_COLUMNS
        (add_normalization_metadata aramco_mult
          (normalize_row aramco_mult MONETARY_COLUMNS aramco_row))).cols
        "revenue" ≠
      (add_normalization_metadata aramco_mult
        (normalize_row aramco_mult MONETARY_COLUMNS aramco_row)).cols
        "revenue" := by
  have ht : toString (2222 : ℤ) = "2222" := by decide
  have hg : ((MONETARY_COLUMNS.contains "revenue" ||
      MILLIONS_COLUMNS.contains "revenue") &&
      MONETARY_COLUMNS.contains "revenue") = true := by decide
  simp only [normalize_row, add_normalization_metadata, aramco_row,
    aramco_mult, ht, hg, if_true]
  norm_num

/-- C2 (amended): a second application of unit normalization to
already-normalized rows is a no-op only when the multiplier map it runs with
records multiplier 1 for the mapped tickers; the code never consults the
`was_normalized` / `normalization_multiplier` metadata, so with the original
non-1 map the monetary fields are rescaled again (see the counterexample). -/
theorem c2_renormalization_noop_with_unit_multipliers
    (mult : String → Option MultEntry) (dfCols : List String) (r : Row)
    (h : ∀ s e, mult s = some e → e.multiplier = 1) :
    normalize_row mult dfCols
        (add_normalization_metadata mult (normalize_row mult dfCols r)) =
      add_normalization_metadata mult (normalize_row mult dfCols r) :=
  normalize_row_multiplier_one mult dfCols _ h

/-- Witness for the amended C2 at the concrete all-ones multiplier map and
the Aramco row. -/
theorem c2_renormalization_noop_witness :
    normalize_row all_one_mult MONETARY_COLUMNS
        (add_normalization_metadata all_one_mult
          (normalize_row all_one_mult MONETARY_COLUMNS aramco_row)) =
      add_normalization_metadata all_one_mult
        (normalize_row all_one_mult MONETARY_COLUMNS aramco_row) :=
  c2_renormalization_noop_with_unit_multipliers all_one_mult MONETARY_COLUMNS
    aramco_row
    (fun _ e h => by
      injection h with h2
      exact (congrArg MultEntry.multiplier h2).symm)

/-- C10. `normalize_data` only rescales the monetary and millions columns of
rows whose canonical ticker is in the multiplier map: a row with a NaN
ticker or an unmapped ticker is returned unchanged, the non-column fields of
every row are unchanged, a column outside the monetary and millions lists is
unchanged, a column absent from the dataframe is unchanged, and a null or
exactly-zero monetary cell is unchanged. -/
theorem c10_normalize_frame (mult : String → Option MultEntry)
    (dfCols : List String) (r : Row) :
    (r.ticker = none → normalize_row mult dfCols r = r) ∧
    (∀ t, r.ticker = some t → mult (toString t) = none →
      normalize_row mult dfCols r = r) ∧
    ((normalize_row mult dfCols r).ticker = r.ticker ∧
      (normalize_row mult dfCols r).original_unit = r.original_unit ∧
      (normalize_row mult dfCols r).was_normalized = r.was_normalized ∧
      (normalize_row mult dfCols r).normalization_multiplier =
        r.normalization_multiplier) ∧
    (∀ c, c ∉ MONETARY_COLUMNS → c ∉ MILLIONS_COLUMNS →
      (normalize_row mult dfCols r).cols c = r.cols c) ∧
    (∀ c, c ∉ dfCols →
      (normalize_row mult dfCols r).cols c = r.cols c) ∧
    (∀ c, r.cols c = none → (normalize_row mult dfCols r).cols c = none) ∧
    (∀ c, r.cols c = some 0 → (normalize_row mult dfCols r).cols c = some 0) := by
  obtain ⟨ticker, ou, wn, nm, cols⟩ := r
  cases ticker with
  | none =>
    refine ⟨fun _ => rfl, ?_, ⟨rfl, rfl, rfl, rfl⟩, ?_, ?_, ?_, ?_⟩
    · intro t h; cases h
    · intro c _ _; rfl
    · intro c _; rfl
    · intro c h; exact h
    · intro c h; exact h
  | some t =>
    cases hm : mult (toString t) with
    | none =>
      refine ⟨?_, ?_, ?_, ?_, ?_, ?_, ?_⟩
      · intro h; cases h
      · intro t2 h2 hm2; cases h2; simp [normalize_row, hm]
      · simp [normalize_row, hm]
      · intro c _ _; simp [normalize_row, hm]
      · intro c _; simp [normalize_row, hm]
      · intro c h; simp [normalize_row, hm, h]
      · intro c h; simp [normalize_row, hm, h]
    | some e =>
      refine ⟨?_, ?_, ?_, ?_, ?_, ?_, ?_⟩
      · intro h; cases h
      · intro t2 h2 hm2; cases h2; rw [hm] at hm2; cases hm2
      · simp [normalize_row, hm]
      · intro c h1 h2; simp [normalize_row, hm, h1, h2]
      · intro c h1; simp [normalize_row, hm, h1]
      · intro c h1
        replace h1 : cols c = none := h1
        by_cases hmem : (c ∈ MONETARY_COLUMNS ∨ c ∈ MILLIONS_COLUMNS) ∧
            c ∈ dfCols <;>
          simp [normalize_row, hm, h1, hmem]
      · intro c h1
        replace h1 : cols c = some 0 := h1
        by_cases hmem : (c ∈ MONETARY_COLUMNS ∨ c ∈ MILLIONS_COLUMNS) ∧
            c ∈ dfCols <;>
          simp [normalize_row, hm, h1, hmem]

/-- Witness for C10 at the concrete Aramco map and row: a row whose ticker
is absent from the map is unchanged, and the zero/null cells of a mapped row
are unchanged. -/
theorem c10_normalize_frame_witness :
    normalize_row aramco_mult MONETARY_COLUMNS
        { aramco_row with ticker := some 1010 } =
      { aramco_row with ticker := some 1010 } ∧
    (normalize_row aramco_mult MONETARY_COLUMNS aramco_row).cols
        "net_profit" = none := by
  constructor
  · exact (c10_normalize_frame aramco_mult MONETARY_COLUMNS
      { aramco_row with ticker := some 1010 }).2.1 1010 rfl (by decide)
  · exact (c10_normalize_frame aramco_mult MONETARY_COLUMNS
      aramco_row).2.2.2.2.2.1 "net_profit" (by decide)

/-- C3. When a record with the same (ticker, fiscal_year, period_type) key
is already stored, the loader replaces it in place exactly when the incoming
extraction timestamp is strictly newer, and skips otherwise: loading T1 then
T2 (T1 < T2) ends with the T2 data, and loading T2 then T1 leaves the T2
data unchanged. -/
theorem c3_freshness_upsert (r1 r2 : LoadRec) (t1 t2 : ℕ)
    (hk1 : r1.ticker = r2.ticker) (hk2 : r1.fiscal_year = r2.fiscal_year)
    (hk3 : r1.period_type = r2.period_type)
    (hd1 : r1.extraction_date = some t1)
    (hd2 : r2.extraction_date = some t2) :
    (load_record [r1] r2 = if t1 < t2 then [r2] else [r1]) ∧
    (t1 < t2 →
      load_record (load_record [] r1) r2 = [r2] ∧
      load_record (load_record [] r2) r1 = [r2]) := by
  have hm12 : matches_key r1 r2 = true := by
    simp [matches_key, hk1, hk2, hk3]
  have hm21 : matches_key r2 r1 = true := by
    simp [matches_key, hk1, hk2, hk3]
  refine ⟨?_, fun h => ⟨?_, ?_⟩⟩
  · simp [load_record, hm12, hd1, hd2]
  · simp [load_record, hm12, hd1, hd2, h]
  · have h2 : ¬ t2 < t1 := Nat.not_lt.mpr (Nat.le_of_lt h)
    simp [load_record, hm21, hd1, hd2, h2]

/-- Witness for C3: the concrete ticker-2222 FY2024 Annual records with
timestamps 1 < 2, loaded in both orders, both end with the newer record. -/
theorem c3_freshness_upsert_witness :
    load_record (load_record [] rec_t1) rec_t2 = [rec_t2] ∧
    load_record (load_record [] rec_t2) rec_t1 = [rec_t2] :=
  (c3_freshness_upsert rec_t1 rec_t2 1 2 rfl rfl rfl rfl rfl).2 (by decide)

/-- C4. For a benchmark-listed entity with non-zero observed revenue the
inferred multiplier agrees with the claimed classification of the ratio
expected/observed (strictly inside (500000, 2000000) gives 1000000, strictly
inside (500, 2000) gives 1000, anything else gives 1), and the concrete
scenario observed 175000 against expected 175000000000 infers the millions
multiplier. -/
theorem c4_benchmark_unit_inference (expected actual : ℚ)
    (hexp : 0 < expected) (hobs : actual ≠ 0) :
    (benchmark_multiplier expected actual).2 =
      claimed_multiplier (expected / actual) ∧
    benchmark_multiplier 175000000000 175000 = ("millions", 1000000) := by
  constructor
  · rcases lt_or_gt_of_ne hobs with hneg | hpos
    · have hratio : expected / actual < 0 := div_neg_of_pos_of_neg hexp hneg
      have hb : benchmark_ratio expected actual = 0 := by
        simp [benchmark_ratio, not_lt.mpr hneg.le]
      have hna : ¬ (500000 : ℚ) < expected / actual := by linarith
      have hnb : ¬ (500 : ℚ) < expected / actual := by linarith
      norm_num [benchmark_multiplier, hb, determine_unit, claimed_multiplier,
        hna, hnb]
    · simp only [benchmark_multiplier, benchmark_ratio, if_pos hpos,
        determine_unit, claimed_multiplier]
      split_ifs <;> rfl
  · norm_num [benchmark_multiplier, benchmark_ratio, determine_unit]

/-- Witness for C4 at the concrete benchmark scenario. -/
theorem c4_benchmark_unit_inference_witness :
    (benchmark_multiplier 175000000000 175000).2 =
      claimed_multiplier (175000000000 / 175000) :=
  (c4_benchmark_unit_inference 175000000000 175000 (by norm_num)
    (by norm_num)).1

lemma resolve_same_canonical_key (st : ResolverState) (a b : String)
    (h : canonical_ticker a = canonical_ticker b) :
    (get_or_create_company (get_or_create_company st a).2 b).1 =
      (get_or_create_company st a).1 := by
  have hb : canonical_ticker b = canonical_ticker a := h.symm
  cases hl : cache_lookup (canonical_ticker a) st.cache with
  | some id => simp [get_or_create_company, hb, hl]
  | none => simp [get_or_create_company, hb, hl, cache_lookup]

/-- C5 counterexample: the `TASIDataMigrator` resolver of
src/schema/02_etl_migrate.py only trims whitespace, so within a fresh run
"1010" and "1010.0" resolve to different company ids. -/
theorem c5_etl_resolver_splits_float_ticker :
    (get_or_create_company_etl
        (get_or_create_company_etl ⟨[], 0⟩ "1010").2 "1010.0").1 ≠
      (get_or_create_company_etl ⟨[], 0⟩ "1010").1 := by
  decide

/-- C5 (amended): in the src/migrate_data.py resolver, which strips a
trailing ".0" after trimming, the inputs "1010", "1010.0" and " 1010 "
resolved in sequence within any run state all return the same company id;
the 02_etl_migrate.py resolver lacks the ".0" strip and separates "1010.0"
(see the counterexample). -/
theorem c5_ticker_canonicalization (st : ResolverState) :
    (get_or_create_company (get_or_create_company st "1010").2 "1010.0").1 =
      (get_or_create_company st "1010").1 ∧
    (get_or_create_company
        (get_or_create_company (get_or_create_company st "1010").2
          "1010.0").2 " 1010 ").1 =
      (get_or_create_company (get_or_create_company st "1010").2
        "1010.0").1 :=
  ⟨resolve_same_canonical_key st "1010" "1010.0" (by decide),
   resolve_same_canonical_key _ "1010.0" " 1010 " (by decide)⟩

/-- Witness for C5 at the empty run state. -/
theorem c5_ticker_canonicalization_witness :
    (get_or_create_company (get_or_create_company ⟨[], 0⟩ "1010").2
        "1010.0").1 =
      (get_or_create_company ⟨[], 0⟩ "1010").1 :=
  (c5_ticker_canonicalization ⟨[], 0⟩).1

/-- C6. For a resolved period-end month (1 to 12) both quarter derivations
return FY whenever the period type is Annual, regardless of the month, and
otherwise bucket the month as 1-3 to Q1, 4-6 to Q2, 7-9 to Q3 and 10-12 to
Q4 (so month 2 with Quarterly gives Q1 while the same month with Annual
gives FY). -/
theorem c6_fiscal_quarter_derivation (month : ℕ) (pt : String)
    (h1 : 1 ≤ month) (h2 : month ≤ 12) :
    get_quarter month "Annual" = "FY" ∧
    determine_quarter_from_date month "Annual" = "FY" ∧
    (pt ≠ "Annual" →
      get_quarter month pt = claimed_quarter_bucket month ∧
      determine_quarter_from_date month pt = claimed_quarter_bucket month) := by
  refine ⟨by simp [get_quarter], by simp [determine_quarter_from_date],
    fun hpt => ⟨?_, ?_⟩⟩
  · interval_cases month <;> simp [get_quarter, claimed_quarter_bucket, hpt]
  · interval_cases month <;>
      simp [determine_quarter_from_date, claimed_quarter_bucket, hpt]

/-- Witness for C6 at month 2: Quarterly gives the Q1 bucket and Annual
gives FY. -/
theorem c6_fiscal_quarter_derivation_witness :
    get_quarter 2 "Annual" = "FY" ∧
    get_quarter 2 "Quarterly" = claimed_quarter_bucket 2 := by
  have h := c6_fiscal_quarter_derivation 2 "Quarterly" (by decide) (by decide)
  exact ⟨h.1, (h.2.2 (by decide)).1⟩

/-- C7. For every record with the three balance-sheet fields present and a
positive total_assets, the validator flags a failure exactly when the
relative variance exceeds the 5 percent tolerance; the record
(1000, 600, 400) passes with zero variance and (1000, 600, 300) (10 percent
variance) fails. -/
theorem c7_balance_sheet_tolerance :
    (∀ a l e : ℚ, 0 < a →
      (balance_sheet_fails a l e = true ↔ |a - (l + e)| / a * 100 > 5)) ∧
    balance_sheet_fails 1000 600 400 = false ∧
    balance_variance_pct 1000 600 400 = 0 ∧
    balance_sheet_fails 1000 600 300 = true := by
  refine ⟨?_, ?_, ?_, ?_⟩
  · intro a l e ha
    simp [balance_sheet_fails, balance_variance_pct, ha,
      balance_sheet_tolerance]
  · norm_num [balance_sheet_fails, balance_variance_pct,
      balance_sheet_tolerance]
  · norm_num [balance_variance_pct]
  · norm_num [balance_sheet_fails, balance_variance_pct,
      balance_sheet_tolerance]

/-- Witness for C7 at the failing record (1000, 600, 300). -/
theorem c7_balance_sheet_tolerance_witness :
    (0 : ℚ) < 1000 ∧
    (balance_sheet_fails 1000 600 300 = true ↔
      |(1000 : ℚ) - (600 + 300)| / 1000 * 100 > 5) :=
  ⟨by norm_num, c7_balance_sheet_tolerance.1 1000 600 300 (by norm_num)⟩

/-- C8 counterexample: `clean_boolean` does not return false for a non-null,
non-boolean, non-string value; a non-zero number falls through to Python
`bool(value)` and yields true. -/
theorem c8_clean_boolean_numeric_counterexample :
    clean_boolean (PyVal.num 5) ≠ false := by decide

/-- C8 (amended): `clean_boolean` maps null to false, passes booleans
through, maps a string to membership of its upper-cased form in the truthy
set, and maps every other value through Python truthiness — for a number,
true exactly when it is non-zero (so numbers are not always false). -/
theorem c8_clean_boolean_behavior :
    clean_boolean PyVal.null = false ∧
    (∀ b, clean_boolean (PyVal.boolv b) = b) ∧
    (∀ s, clean_boolean (PyVal.str s) = true ↔
      py_upper s ∈ (["TRUE", "YES", "1", "T"] : List String)) ∧
    (∀ q, clean_boolean (PyVal.num q) = true ↔ q ≠ 0) := by
  refine ⟨rfl, fun b => rfl, fun s => ?_, fun q => ?_⟩
  · simp [clean_boolean]
  · simp [clean_boolean]

/-- Witness for C8: a lowercase truthy string is accepted and a zero number
is not truthy. -/
theorem c8_clean_boolean_behavior_witness :
    clean_boolean (PyVal.str "yes") = true ∧
    clean_boolean (PyVal.num 0) ≠ true :=
  ⟨(c8_clean_boolean_behavior.2.2.1 "yes").mpr (by decide),
   fun h => (c8_clean_boolean_behavior.2.2.2 0).mp h rfl⟩

/-- C9. A profitability score that parses to 0 is stored as NULL, the stored
score is never the integer 0, any stored score comes from a non-zero parsed
value as its truncated integer, and the migrate_data.py and
02_etl_migrate.py expressions agree. -/
theorem c9_zero_profitability_score_null (parsed : Option ℚ) :
    (parsed = some 0 → profitability_score_stored parsed = none) ∧
    profitability_score_stored parsed ≠ some 0 ∧
    (∀ i : ℤ, profitability_score_stored parsed = some i →
      ∃ q, parsed = some q ∧ q ≠ 0 ∧ i = py_int_trunc q ∧ i ≠ 0) ∧
    profitability_score_stored_etl parsed =
      profitability_score_stored parsed := by
  refine ⟨?_, ?_, ?_, ?_⟩
  · rintro rfl
    simp [profitability_score_stored, py_int_trunc]
  · cases parsed with
    | none => simp [profitability_score_stored]
    | some q =>
      by_cases hq : py_int_trunc q = 0 <;>
        simp [profitability_score_stored, hq]
  · intro i hi
    cases parsed with
    | none => simp [profitability_score_stored] at hi
    | some q =>
      by_cases hq : py_int_trunc q = 0
      · simp [profitability_score_stored, hq] at hi
      · simp [profitability_score_stored, hq] at hi
        have hq0 : q ≠ 0 := by
          rintro rfl
          exact hq (by simp [py_int_trunc])
        exact ⟨q, rfl, hq0, hi.symm, hi ▸ hq⟩
  · cases parsed with
    | none =>
      simp [profitability_score_stored, profitability_score_stored_etl,
        py_int_trunc]
    | some q => rfl

/-- Witness for C9: a parsed 0 is stored as NULL and a parsed 3 is not
stored as 0. -/
theorem c9_zero_profitability_score_null_witness :
    profitability_score_stored (some 0) = none ∧
    profitability_score_stored (some 3) ≠ some 0 :=
  ⟨(c9_zero_profitability_score_null (some 0)).1 rfl,
   (c9_zero_profitability_score_null (some 3)).2.1⟩

end TASI
